import Mathlib

/- Shallow embedding of the modeload CLI (TypeScript).

   Source map:
   - `findCursorDatabase`, `validateCursorDatabase`  : src/database.ts
   - `loadModesFromFile` (import / merge)            : src/load.ts
   - `saveModesToFile` (export / extract)            : save.ts
   - `promptConfirmation`, `handleLoadCommand`       : index.ts
   - the key constants                               : constants.ts

   Modelling decisions:
   - JSON values are an inductive `JValue`; numbers are integers, since every
     claim under study is purely structural.  JavaScript objects are
     association lists; `JSON.parse` never produces duplicate keys, and the
     property read/write helpers `objGet`/`objSet` mirror JavaScript
     semantics (read the first binding; assignment replaces the value in
     place, or appends a new binding at the end).
   - The embedded SQLite engine is an association table from keys to stored
     blobs; a blob is either well-formed JSON or malformed text, so that
     `JSON.parse` of a stored value can fail exactly as in the source.  The
     SQL `UPDATE ... WHERE key = ?` statement rewrites matching rows and
     never inserts.
   - Effects the claims talk about (opening and closing the store handle,
     the confirmation prompt, reading the input file, writing the output
     file, the UPDATE statement, the non-fatal no-modes diagnostic) are
     recorded in an explicit event trace, in program order.
   - `JSON.parse (JSON.stringify v)` is the identity on the modelled value
     universe, so writing an exported array to a file and re-reading it is
     represented by passing the `JValue` through unchanged. -/

namespace Modeload

inductive JValue where
  | null
  | bool (b : Bool)
  | num (n : Int)
  | str (s : String)
  | arr (elems : List JValue)
  | obj (fields : List (String × JValue))

/-- JavaScript falsiness of a JSON value (`undefined` is handled at use
sites through `Option`).  Objects and arrays are always truthy. -/
def jsFalsy : JValue → Bool
  | JValue.null => true
  | JValue.bool b => !b
  | JValue.num n => n == 0
  | JValue.str s => s == ""
  | JValue.arr _ => false
  | JValue.obj _ => false

/-- The check `Array.isArray`. -/
def isArr : JValue → Bool
  | JValue.arr _ => true
  | _ => false

/-- constants.ts: `CURSOR_SETTINGS_KEY`. -/
def CURSOR_SETTINGS_KEY : String :=
  "src.vs.platform.reactivestorage.browser.reactiveStorageServiceImpl.persistentStorage.applicationUser"

/-- constants.ts: `COMPOSER_STATE_KEY`. -/
def COMPOSER_STATE_KEY : String := "composerState"

/-- constants.ts: `MODES_KEY`. -/
def MODES_KEY : String := "modes4"

/-- JavaScript property read `o[k]` on an object: the value of the first
binding for `k`, `undefined` (= `none`) when absent. -/
def objGet (o : List (String × JValue)) (k : String) : Option JValue :=
  (o.find? (fun p => p.1 == k)).map (fun p => p.2)

/-- JavaScript property write `o[k] = v`: replace the value of an existing
binding in place, otherwise append a new binding at the end. -/
def objSet (o : List (String × JValue)) (k : String) (v : JValue) :
    List (String × JValue) :=
  if (o.find? (fun p => p.1 == k)).isSome then
    o.map (fun p => if p.1 == k then (k, v) else p)
  else
    o ++ [(k, v)]

/-- Optional chaining `v?.[k]`: property read through a possibly absent
value; property reads on non-objects yield `undefined`, and `null`
short-circuits. -/
def optChain (v : Option JValue) (k : String) : Option JValue :=
  match v with
  | some (JValue.obj fields) => objGet fields k
  | _ => none

/-- A blob stored in the `ItemTable` `value` column: either text that
`JSON.parse` accepts (carried as its parse), or malformed text. -/
inductive Raw where
  | wf (v : JValue)
  | malformed (s : String)

/-- The model of `JSON.parse` applied to a stored blob. -/
def parseRaw : Raw → Except String JValue
  | Raw.wf v => Except.ok v
  | Raw.malformed s => Except.error s

/-- The SQL `SELECT value FROM ItemTable WHERE key = ?` row lookup. -/
def tableGet (t : List (String × Raw)) (k : String) : Option Raw :=
  (t.find? (fun r => r.1 == k)).map (fun r => r.2)

/-- The SQL `UPDATE ItemTable SET value = ? WHERE key = ?` statement: it
rewrites the value of matching rows and never inserts a row. -/
def tableUpdate (t : List (String × Raw)) (k : String) (v : Raw) :
    List (String × Raw) :=
  t.map (fun r => if r.1 == k then (r.1, v) else r)

/-- Observable effects of the pipelines, in program order. -/
inductive Event where
  | openStore (readonly : Bool)
  | closeStore
  | prompt
  | fileRead
  | fileWrite
  | warnNoModes
  | dbUpdate (key : String)
deriving DecidableEq

/-- index.ts, `promptConfirmation`: the answer matches the affirmative
branch iff `answer.toLowerCase()` equals `y` or `yes`.  JavaScript
`toLowerCase` is modelled as per-character lowercasing of the decoded
character sequence; readline strips the line terminator but performs no
other trimming. -/
def promptAffirmative (answer : String) : Bool :=
  answer.data.map Char.toLower == ['y'] ||
  answer.data.map Char.toLower == ['y', 'e', 's']

def readParseErrPrefix : String := "Failed to read/parse JSON file: "

def notArrayErr : String := "JSON file must contain an array of modes"

def settingsNotFoundErr : String :=
  "Settings not found in database. Key: " ++ CURSOR_SETTINGS_KEY

def parseSettingsErrPrefix : String := "Failed to parse current settings: "

def parseSettingsJsonErrPrefix : String := "Failed to parse settings JSON: "

def writeFileErr : String := "Failed to write file: EACCES"

def loadFailedPrefix : String := "Load failed: "

def unmodelledTargetErr : String :=
  "unmodelled: property assignment on a non-object composerState"

def unmodelledRecordErr : String :=
  "unmodelled: stored settings value is not a JSON object"

/-- Result of the export pipeline: outcome, event trace, and the JSON value
written to the output file (when the write happened). -/
structure SaveResult where
  result : Except String Unit
  events : List Event
  written : Option JValue

/-- Result of the import pipeline: outcome, event trace, and the final
database table. -/
structure LoadResult where
  result : Except String Unit
  events : List Event
  db : List (String × Raw)

/-- save.ts, `saveModesToFile`: opens the store read-only, fetches the
settings row (error when absent), parses it (error on malformed JSON),
extracts `settingsData?.[COMPOSER_STATE_KEY]?.[MODES_KEY]`; when the
extracted value is missing, falsy, or not an array it emits the non-fatal
no-modes diagnostic and writes `[]`, otherwise it writes the array; the
`finally` block closes the handle on every path.  `writeOk` says whether
the file-system write succeeds; on failure the wrapped write error
propagates (through the `finally`). -/
def saveModesToFile (db : List (String × Raw)) (writeOk : Bool) : SaveResult :=
  match tableGet db CURSOR_SETTINGS_KEY with
  | none =>
      { result := Except.error settingsNotFoundErr,
        events := [Event.openStore true, Event.closeStore],
        written := none }
  | some raw =>
      match parseRaw raw with
      | Except.error e =>
          { result := Except.error (parseSettingsJsonErrPrefix ++ e),
            events := [Event.openStore true, Event.closeStore],
            written := none }
      | Except.ok settingsData =>
          match optChain (optChain (some settingsData) COMPOSER_STATE_KEY) MODES_KEY with
          | some (JValue.arr xs) =>
              if jsFalsy (JValue.arr xs) then
                -- unreachable: arrays are truthy, kept for faithfulness to
                -- the source condition `!modes || !Array.isArray(modes)`
                { result := Except.error writeFileErr,
                  events := [Event.openStore true, Event.closeStore],
                  written := none }
              else if writeOk then
                { result := Except.ok (),
                  events := [Event.openStore true, Event.fileWrite, Event.closeStore],
                  written := some (JValue.arr xs) }
              else
                { result := Except.error writeFileErr,
                  events := [Event.openStore true, Event.closeStore],
                  written := none }
          | _ =>
              if writeOk then
                { result := Except.ok (),
                  events := [Event.openStore true, Event.warnNoModes,
                             Event.fileWrite, Event.closeStore],
                  written := some (JValue.arr []) }
              else
                { result := Except.error writeFileErr,
                  events := [Event.openStore true, Event.warnNoModes,
                             Event.closeStore],
                  written := none }

/-- The composerState initialization step of load.ts
(`if (!currentSettings.composerState) currentSettings.composerState = {}`):
when the property is absent or falsy it is set to the empty object,
otherwise the record is unchanged. -/
def composerInit (fields : List (String × JValue)) : List (String × JValue) :=
  if (match objGet fields COMPOSER_STATE_KEY with
      | none => true
      | some v => jsFalsy v) then
    objSet fields COMPOSER_STATE_KEY (JValue.obj [])
  else fields

/-- load.ts, `loadModesFromFile`: reads and parses the input file (given
here as its read/parse outcome `fileParse`), requires an array, opens the
store read-write, fetches the settings row (error when absent), parses it,
initializes `composerState` to `{}` when it is falsy or absent, sets
`composerState.modes4` to the new array, and persists the re-serialized
record with the UPDATE statement; the `finally` block closes the handle on
every path after the open.  Stored records that are not JSON objects, or a
truthy non-object `composerState`, make the strict-mode property
assignment throw in the source; these branches are marked unmodelled (no
claim reaches them) and still close the handle. -/
def loadModesFromFile (db : List (String × Raw)) (fileParse : Except String JValue) :
    LoadResult :=
  match fileParse with
  | Except.error e =>
      { result := Except.error (readParseErrPrefix ++ e),
        events := [Event.fileRead], db := db }
  | Except.ok modesData =>
      match modesData with
      | JValue.arr modesList =>
          match tableGet db CURSOR_SETTINGS_KEY with
          | none =>
              { result := Except.error settingsNotFoundErr,
                events := [Event.fileRead, Event.openStore false, Event.closeStore],
                db := db }
          | some raw =>
              match parseRaw raw with
              | Except.error e =>
                  { result := Except.error (parseSettingsErrPrefix ++ e),
                    events := [Event.fileRead, Event.openStore false, Event.closeStore],
                    db := db }
              | Except.ok currentSettings =>
                  match currentSettings with
                  | JValue.obj fields =>
                      match objGet (composerInit fields) COMPOSER_STATE_KEY with
                      | some (JValue.obj cs) =>
                          { result := Except.ok (),
                            events := [Event.fileRead, Event.openStore false,
                                       Event.dbUpdate CURSOR_SETTINGS_KEY,
                                       Event.closeStore],
                            db := tableUpdate db CURSOR_SETTINGS_KEY
                                    (Raw.wf (JValue.obj
                                      (objSet (composerInit fields) COMPOSER_STATE_KEY
                                        (JValue.obj
                                          (objSet cs MODES_KEY
                                            (JValue.arr modesList)))))) }
                      | _ =>
                          { result := Except.error unmodelledTargetErr,
                            events := [Event.fileRead, Event.openStore false,
                                       Event.closeStore],
                            db := db }
                  | _ =>
                      { result := Except.error unmodelledRecordErr,
                        events := [Event.fileRead, Event.openStore false,
                                   Event.closeStore],
                        db := db }
      | _ =>
          { result := Except.error notArrayErr,
            events := [Event.fileRead], db := db }

/-- index.ts, `handleLoadCommand` error wrapping: `Load failed: ` prefix. -/
def wrapLoad : Except String Unit → Except String Unit
  | Except.ok _ => Except.ok ()
  | Except.error e => Except.error (loadFailedPrefix ++ e)

/-- index.ts, `handleLoadCommand`: when confirmation is not skipped, the
prompt runs first; a non-affirmative answer returns normally without
calling `loadModesFromFile` at all; otherwise (and when `--yes` skips the
prompt) `loadModesFromFile` runs and its error, if any, is wrapped. -/
def handleLoadCommand (db : List (String × Raw)) (fileParse : Except String JValue)
    (skipConfirmation : Bool) (answer : String) : LoadResult :=
  if !skipConfirmation then
    if !(promptAffirmative answer) then
      { result := Except.ok (), events := [Event.prompt], db := db }
    else
      let r := loadModesFromFile db fileParse
      { result := wrapLoad r.result, events := Event.prompt :: r.events, db := r.db }
  else
    let r := loadModesFromFile db fileParse
    { result := wrapLoad r.result, events := r.events, db := r.db }

/-- The six candidate locations of src/database.ts, in declared order
(macOS, Windows, Linux XDG, Linux dotfile, snap, local-share); on POSIX,
`path.join(homedir(), p)` is `homedir() ++ "/" ++ p`. -/
def possiblePaths (home : String) : List String :=
  [home ++ "/Library/Application Support/Cursor/User/globalStorage/state.vscdb",
   home ++ "/AppData/Roaming/Cursor/User/globalStorage/state.vscdb",
   home ++ "/.config/Cursor/User/globalStorage/state.vscdb",
   home ++ "/.cursor/User/globalStorage/state.vscdb",
   home ++ "/snap/cursor/current/.config/Cursor/User/globalStorage/state.vscdb",
   home ++ "/.local/share/Cursor/User/globalStorage/state.vscdb"]

/-- JavaScript `Array.prototype.join`. -/
def joinWith (sep : String) : List String → String
  | [] => ""
  | [x] => x
  | x :: y :: xs => x ++ sep ++ joinWith sep (y :: xs)

def newline : String := "\n"

def bulletPrefix : String := "   • "

def notFoundHeader : String :=
  "\n❌ Cursor database not found in any of the standard locations:\n\n"

/-- The guidance sentence of the not-found error that points the user at
the custom path flag. -/
def dbPathGuidance : String := "Use --db-path to specify a custom database location"

def notFoundFooterA : String :=
  "\n\nThis could mean:\n1. Cursor is not installed\n2. Cursor is installed in a non-standard location\n3. Cursor hasn\x27t been run yet (database not created)\n\nSolutions:\n• Make sure Cursor is installed and has been run at least once\n• "

def notFoundFooterB : String :=
  "\n• Check if Cursor is installed in a different location\n\nExample with custom path:\n   modeload save modes.json --db-path \"/path/to/your/state.vscdb\"\n"

def notFoundFooter : String := notFoundFooterA ++ dbPathGuidance ++ notFoundFooterB

/-- The error message of src/database.ts when no candidate exists: header,
one bullet line per candidate path joined with newlines, and the guidance
footer. -/
def notFoundMessage (home : String) : String :=
  notFoundHeader ++
  joinWith newline ((possiblePaths home).map (fun p => bulletPrefix ++ p)) ++
  notFoundFooter

def customNotFoundPrefix : String := "Custom database path not found: "

/-- JavaScript truthiness of the optional `customPath` argument: an absent
argument is `undefined` (falsy) and the empty string is falsy too. -/
def jsTruthyStr : Option String → Bool
  | none => false
  | some s => !(s == "")

/-- src/database.ts, `findCursorDatabase`: a truthy custom path is returned
iff it exists (error naming it otherwise); otherwise candidates are probed
in declared order and the first existing one is returned, with the
enumerating error when none exists.  `ex` is `existsSync`. -/
def findCursorDatabase (ex : String → Bool) (home : String)
    (customPath : Option String) : Except String String :=
  if jsTruthyStr customPath then
    let p := customPath.getD ""
    if ex p then Except.ok p
    else Except.error (customNotFoundPrefix ++ p)
  else
    match (possiblePaths home).find? ex with
    | some p => Except.ok p
    | none => Except.error (notFoundMessage home)

/-- The file that `validateCursorDatabase` inspects: whether the path
exists, and the outcome of `readFileSync` (which may throw). -/
structure DbFile where
  pathExists : Bool
  readBytes : Except String (List Nat)

/-- Node `buffer.toString` with the ascii encoding: each byte is masked to
7 bits and read as a character. -/
def asciiDecode (bytes : List Nat) : List Char :=
  bytes.map (fun b => Char.ofNat (b % 128))

/-- The 15-character signature string literal of src/database.ts. -/
def sqliteMagic : List Char :=
  ['S', 'Q', 'L', 'i', 't', 'e', ' ', 'f', 'o', 'r', 'm', 'a', 't', ' ', '3']

/-- src/database.ts, `validateCursorDatabase`: false when the path does not
exist; otherwise read the file (any thrown error is caught and yields
false), decode the first 16 bytes as ascii — fewer when the file is
shorter — and test `header.startsWith("SQLite format 3")`. -/
def validateCursorDatabase (f : DbFile) : Bool :=
  if !f.pathExists then
    false
  else
    match f.readBytes with
    | Except.error _ => false
    | Except.ok bytes =>
        sqliteMagic.isPrefixOf (asciiDecode (bytes.take 16))

def emptyStr : String := ""

def spacedY : String := " y "

def answerNo : String := "n"

def answerYes : String := "YES"

def homeSample : String := "/home/u"

/-- The first (macOS) candidate path at the sample home directory. -/
def macPathSample : String :=
  homeSample ++ "/Library/Application Support/Cursor/User/globalStorage/state.vscdb"

/-- The second (Windows) candidate path at the sample home directory. -/
def winPathSample : String :=
  homeSample ++ "/AppData/Roaming/Cursor/User/globalStorage/state.vscdb"

/-- The candidates after the Windows one at the sample home directory. -/
def postPathsSample : List String :=
  [homeSample ++ "/.config/Cursor/User/globalStorage/state.vscdb",
   homeSample ++ "/.cursor/User/globalStorage/state.vscdb",
   homeSample ++ "/snap/cursor/current/.config/Cursor/User/globalStorage/state.vscdb",
   homeSample ++ "/.local/share/Cursor/User/globalStorage/state.vscdb"]

/-- A sample file-existence oracle under which exactly the Windows
candidate exists. -/
def exSample : String → Bool := fun s => s == winPathSample

def otherKey : String := "other"

def extraKey : String := "extra"

/-- A sample nested container holding a modes array and a sibling. -/
def sampleContainer : List (String × JValue) :=
  [(MODES_KEY, JValue.arr [JValue.num 7]), (otherKey, JValue.num 1)]

/-- A sample settings record with the container and a top-level sibling. -/
def sampleFields : List (String × JValue) :=
  [(COMPOSER_STATE_KEY, JValue.obj sampleContainer), (extraKey, JValue.num 2)]

/-- A sample store holding the settings record under the fixed key. -/
def sampleDb : List (String × Raw) :=
  [(CURSOR_SETTINGS_KEY, Raw.wf (JValue.obj sampleFields))]

/-- A sample settings record whose composerState holds no modes array. -/
def sampleNoModesFields : List (String × JValue) :=
  [(COMPOSER_STATE_KEY, JValue.obj [])]

/-- A sample store for the no-modes export scenario. -/
def sampleNoModesDb : List (String × Raw) :=
  [(CURSOR_SETTINGS_KEY, Raw.wf (JValue.obj sampleNoModesFields))]

/-- `sub` occurs contiguously inside `s`. -/
def strContainsSub (s sub : String) : Prop := ∃ a b, s = a ++ sub ++ b

/-- Whether an event opens the store handle. -/
def isOpenEv : Event → Bool
  | Event.openStore _ => true
  | _ => false

/-- Whether an event closes the store handle. -/
def isCloseEv : Event → Bool
  | Event.closeStore => true
  | _ => false

def opensCount (evs : List Event) : Nat := (evs.filter isOpenEv).length

def closesCount (evs : List Event) : Nat := (evs.filter isCloseEv).length

/-- Scoped-resource discipline of a trace: handle opens and closes balance
over the whole trace, and no prefix has closed more handles than it has
opened, so an opened handle is always closed before the pipeline ends and
never closed before it is opened. -/
def wellScoped (evs : List Event) : Bool :=
  (opensCount evs == closesCount evs) &&
  (List.range (evs.length + 1)).all
    (fun i => Nat.ble (closesCount (evs.take i)) (opensCount (evs.take i)))

theorem find_cons_pos {α : Type} (f : α → Bool) (x : α) (l : List α) (h : f x = true) :
    (x :: l).find? f = some x := by
  rw [List.find?_cons, h]

theorem find_cons_neg {α : Type} (f : α → Bool) (x : α) (l : List α) (h : f x = false) :
    (x :: l).find? f = l.find? f := by
  rw [List.find?_cons, h]

theorem find_append_none {α : Type} (f : α → Bool) (l₂ : List α) :
    ∀ l₁ : List α, l₁.find? f = none → (l₁ ++ l₂).find? f = l₂.find? f := by
  intro l₁
  induction l₁ with
  | nil => intro _; rfl
  | cons x xs ih =>
      intro h
      cases hx : f x with
      | true =>
          rw [find_cons_pos f x xs hx] at h
          exact Option.noConfusion h
      | false =>
          rw [find_cons_neg f x xs hx] at h
          rw [List.cons_append, find_cons_neg f x (xs ++ l₂) hx]
          exact ih h

theorem find_append_some {α : Type} (f : α → Bool) (l₂ : List α) :
    ∀ (l₁ : List α) (a : α), l₁.find? f = some a → (l₁ ++ l₂).find? f = some a := by
  intro l₁
  induction l₁ with
  | nil => intro a h; exact Option.noConfusion h
  | cons x xs ih =>
      intro a h
      cases hx : f x with
      | true =>
          rw [find_cons_pos f x xs hx] at h
          rw [List.cons_append, find_cons_pos f x (xs ++ l₂) hx]
          exact h
      | false =>
          rw [find_cons_neg f x xs hx] at h
          rw [List.cons_append, find_cons_neg f x (xs ++ l₂) hx]
          exact ih a h

theorem objGet_map_set (k : String) (v : JValue) :
    ∀ o : List (String × JValue),
      (o.find? (fun p => p.1 == k)).isSome = true →
      objGet (o.map (fun p => if p.1 == k then (k, v) else p)) k = some v := by
  intro o
  induction o with
  | nil => intro h; exact absurd h (by simp)
  | cons p ps ih =>
      intro h
      by_cases hp1 : p.1 = k
      · have bpos : (p.1 == k) = true := beq_iff_eq.mpr hp1
        have hhead : (if p.1 == k then (k, v) else p) = (k, v) := by simp [bpos]
        simp only [objGet, List.map_cons, hhead]
        rw [find_cons_pos (fun q : String × JValue => q.1 == k) (k, v) _ (by simp)]
        rfl
      · have bneg : (p.1 == k) = false := beq_eq_false_iff_ne.mpr hp1
        have hhead : (if p.1 == k then (k, v) else p) = p := by simp [bneg]
        have h' : (ps.find? (fun p => p.1 == k)).isSome = true := by
          rw [find_cons_neg (fun q : String × JValue => q.1 == k) p ps bneg] at h
          exact h
        simp only [objGet, List.map_cons, hhead]
        rw [find_cons_neg (fun q : String × JValue => q.1 == k) p _ bneg]
        simpa only [objGet] using ih h'

theorem objGet_map_set_other (k k' : String) (v : JValue) (h : k' ≠ k) :
    ∀ o : List (String × JValue),
      objGet (o.map (fun p => if p.1 == k then (k, v) else p)) k' = objGet o k' := by
  intro o
  have hkk' : (k == k') = false := beq_eq_false_iff_ne.mpr (Ne.symm h)
  induction o with
  | nil => rfl
  | cons p ps ih =>
      by_cases hp1 : p.1 = k
      · have bpos : (p.1 == k) = true := beq_iff_eq.mpr hp1
        have hhead : (if p.1 == k then (k, v) else p) = (k, v) := by simp [bpos]
        have hR : (p.1 == k') = false := by rw [hp1]; exact hkk'
        simp only [objGet, List.map_cons, hhead]
        rw [find_cons_neg (fun q : String × JValue => q.1 == k') (k, v) _ hkk']
        rw [find_cons_neg (fun q : String × JValue => q.1 == k') p _ hR]
        simpa only [objGet] using ih
      · have bneg : (p.1 == k) = false := beq_eq_false_iff_ne.mpr hp1
        have hhead : (if p.1 == k then (k, v) else p) = p := by simp [bneg]
        simp only [objGet, List.map_cons, hhead]
        by_cases hq1 : p.1 = k'
        · have bq : (p.1 == k') = true := beq_iff_eq.mpr hq1
          rw [find_cons_pos (fun q : String × JValue => q.1 == k') p _ bq]
          rw [find_cons_pos (fun q : String × JValue => q.1 == k') p _ bq]
        · have bq : (p.1 == k') = false := beq_eq_false_iff_ne.mpr hq1
          rw [find_cons_neg (fun q : String × JValue => q.1 == k') p _ bq]
          rw [find_cons_neg (fun q : String × JValue => q.1 == k') p _ bq]
          simpa only [objGet] using ih

theorem objGet_objSet_self (o : List (String × JValue)) (k : String) (v : JValue) :
    objGet (objSet o k v) k = some v := by
  unfold objSet
  cases hf : o.find? (fun p => p.1 == k) with
  | some a =>
      rw [if_pos (show (some a).isSome = true from rfl)]
      exact objGet_map_set k v o (by rw [hf]; rfl)
  | none =>
      rw [if_neg (show ¬ (none : Option (String × JValue)).isSome = true from by simp)]
      simp only [objGet]
      rw [find_append_none _ _ _ hf]
      rw [find_cons_pos (fun q : String × JValue => q.1 == k) (k, v) [] (by simp)]
      rfl

theorem objGet_objSet_other (o : List (String × JValue)) (k k' : String) (v : JValue)
    (h : k' ≠ k) : objGet (objSet o k v) k' = objGet o k' := by
  unfold objSet
  cases hf : o.find? (fun p => p.1 == k) with
  | some a =>
      rw [if_pos (show (some a).isSome = true from rfl)]
      exact objGet_map_set_other k k' v h o
  | none =>
      rw [if_neg (show ¬ (none : Option (String × JValue)).isSome = true from by simp)]
      simp only [objGet]
      cases hg : o.find? (fun p => p.1 == k') with
      | some a => rw [find_append_some _ _ _ _ hg]
      | none =>
          rw [find_append_none _ _ _ hg]
          have hkv : (k == k') = false := beq_eq_false_iff_ne.mpr (Ne.symm h)
          rw [find_cons_neg (fun q : String × JValue => q.1 == k') (k, v) [] hkv]
          rfl

theorem tableGet_map_update (k : String) (v : Raw) :
    ∀ t : List (String × Raw),
      (t.find? (fun r => r.1 == k)).isSome = true →
      tableGet (t.map (fun r => if r.1 == k then (r.1, v) else r)) k = some v := by
  intro t
  induction t with
  | nil => intro h; exact absurd h (by simp)
  | cons r rs ih =>
      intro h
      by_cases hr1 : r.1 = k
      · have bpos : (r.1 == k) = true := beq_iff_eq.mpr hr1
        have hhead : (if r.1 == k then (r.1, v) else r) = (r.1, v) := by simp [bpos]
        simp only [tableGet, List.map_cons, hhead]
        rw [find_cons_pos (fun q : String × Raw => q.1 == k) (r.1, v) _ bpos]
        rfl
      · have bneg : (r.1 == k) = false := beq_eq_false_iff_ne.mpr hr1
        have hhead : (if r.1 == k then (r.1, v) else r) = r := by simp [bneg]
        have h' : (rs.find? (fun r => r.1 == k)).isSome = true := by
          rw [find_cons_neg (fun q : String × Raw => q.1 == k) r rs bneg] at h
          exact h
        simp only [tableGet, List.map_cons, hhead]
        rw [find_cons_neg (fun q : String × Raw => q.1 == k) r _ bneg]
        simpa only [tableGet] using ih h'

theorem tableGet_tableUpdate_self (t : List (String × Raw)) (k : String) (v : Raw)
    (h : (tableGet t k).isSome = true) :
    tableGet (tableUpdate t k v) k = some v := by
  unfold tableUpdate
  apply tableGet_map_update
  unfold tableGet at h
  cases hf : t.find? (fun r => r.1 == k) with
  | none => rw [hf] at h; exact absurd h (by simp)
  | some a => rfl

theorem tableGet_tableUpdate_other (t : List (String × Raw)) (k k' : String) (v : Raw)
    (h : k' ≠ k) : tableGet (tableUpdate t k v) k' = tableGet t k' := by
  unfold tableUpdate
  have hkk' : (k == k') = false := beq_eq_false_iff_ne.mpr (Ne.symm h)
  induction t with
  | nil => rfl
  | cons r rs ih =>
      by_cases hr1 : r.1 = k
      · have bpos : (r.1 == k) = true := beq_iff_eq.mpr hr1
        have hhead : (if r.1 == k then (r.1, v) else r) = (r.1, v) := by simp [bpos]
        have hR : (r.1 == k') = false := by rw [hr1]; exact hkk'
        simp only [tableGet, List.map_cons, hhead]
        rw [find_cons_neg (fun q : String × Raw => q.1 == k') (r.1, v) _ hR]
        rw [find_cons_neg (fun q : String × Raw => q.1 == k') r _ hR]
        simpa only [tableGet] using ih
      · have bneg : (r.1 == k) = false := beq_eq_false_iff_ne.mpr hr1
        have hhead : (if r.1 == k then (r.1, v) else r) = r := by simp [bneg]
        simp only [tableGet, List.map_cons, hhead]
        by_cases hq1 : r.1 = k'
        · have bq : (r.1 == k') = true := beq_iff_eq.mpr hq1
          rw [find_cons_pos (fun q : String × Raw => q.1 == k') r _ bq]
          rw [find_cons_pos (fun q : String × Raw => q.1 == k') r _ bq]
        · have bq : (r.1 == k') = false := beq_eq_false_iff_ne.mpr hq1
          rw [find_cons_neg (fun q : String × Raw => q.1 == k') r _ bq]
          rw [find_cons_neg (fun q : String × Raw => q.1 == k') r _ bq]
          simpa only [tableGet] using ih

theorem tableUpdate_keys (t : List (String × Raw)) (k : String) (v : Raw) :
    (tableUpdate t k v).map Prod.fst = t.map Prod.fst := by
  unfold tableUpdate
  induction t with
  | nil => rfl
  | cons r rs ih =>
      simp only [List.map_cons]
      by_cases hr1 : r.1 = k
      · have bpos : (r.1 == k) = true := beq_iff_eq.mpr hr1
        have hhead : (if r.1 == k then (r.1, v) else r) = (r.1, v) := by simp [bpos]
        rw [hhead, ih]
      · have bneg : (r.1 == k) = false := beq_eq_false_iff_ne.mpr hr1
        have hhead : (if r.1 == k then (r.1, v) else r) = r := by simp [bneg]
        rw [hhead, ih]

theorem find?_some_split {α : Type} (f : α → Bool) :
    ∀ (l : List α) (a : α), l.find? f = some a →
      f a = true ∧ ∃ l₁ l₂, l = l₁ ++ a :: l₂ ∧ ∀ x ∈ l₁, f x = false := by
  intro l
  induction l with
  | nil => intro a h; exact Option.noConfusion h
  | cons x xs ih =>
      intro a h
      cases hx : f x with
      | true =>
          rw [find_cons_pos f x xs hx] at h
          obtain rfl : x = a := Option.some.inj h
          exact ⟨hx, [], xs, rfl, by intro y hy; exact absurd hy (List.not_mem_nil y)⟩
      | false =>
          rw [find_cons_neg f x xs hx] at h
          obtain ⟨ha, l₁, l₂, hl, hall⟩ := ih a h
          refine ⟨ha, x :: l₁, l₂, by rw [hl, List.cons_append], ?_⟩
          intro y hy
          rcases List.mem_cons.mp hy with rfl | hy'
          · exact hx
          · exact hall y hy'

/-- C10: calling the locator with an empty-string custom path behaves
exactly as calling it with no custom path at all: the standard candidate
list is probed instead of failing with the custom-path error. -/
theorem c10_empty_custom_path (ex : String → Bool) (home : String) :
    findCursorDatabase ex home (some emptyStr) = findCursorDatabase ex home none := rfl

/-- C7 (counterexample): the input consisting of y surrounded by spaces is
rejected by the confirmation gate, though the claim says leading and
trailing whitespace is ignored. -/
theorem c7_claim_false : promptAffirmative spacedY = false := by decide

/-- C7 (amended): the gate treats an input as affirmative iff its
character-wise lowercasing is exactly y or yes — case-insensitive but with
no whitespace trimming; every other input, including the empty string,
cancels. -/
theorem c7_confirmation_parsing (s : String) :
    promptAffirmative s = true ↔
      (s.data.map Char.toLower = ['y'] ∨ s.data.map Char.toLower = ['y', 'e', 's']) := by
  simp [promptAffirmative]

/-- C6 (counterexample): a 15-byte file holding exactly the signature
prefix validates as true, though the claim demands false for every file of
fewer than 16 bytes. -/
theorem c6_claim_false :
    validateCursorDatabase
        { pathExists := true,
          readBytes := Except.ok [83, 81, 76, 105, 116, 101, 32, 102, 111, 114, 109, 97, 116, 32, 51] } = true
      ∧ ([83, 81, 76, 105, 116, 101, 32, 102, 111, 114, 109, 97, 116, 32, 51] : List Nat).length < 16 := by
  constructor
  · decide
  · decide

/-- C6 (amended): the validator returns true iff the path exists, the read
succeeds, and the ascii decoding of the leading bytes begins with the
15-character signature "SQLite format 3"; the 16th byte is unconstrained,
a 15-byte file equal to the signature validates, and a missing file or a
failing read yields false (the validator is a total boolean, so no
exception escapes). -/
theorem c6_format_validator (f : DbFile) :
    validateCursorDatabase f = true ↔
      (f.pathExists = true ∧ ∃ bytes, f.readBytes = Except.ok bytes ∧
        (asciiDecode bytes).take 15 = sqliteMagic) := by
  cases f with
  | mk pe rb =>
      cases pe with
      | false => simp [validateCursorDatabase]
      | true =>
          cases rb with
          | error e => simp [validateCursorDatabase]
          | ok bytes =>
              have hval : validateCursorDatabase ⟨true, Except.ok bytes⟩ =
                  sqliteMagic.isPrefixOf (asciiDecode (bytes.take 16)) := rfl
              rw [hval]
              have hdec : asciiDecode (bytes.take 16) = (asciiDecode bytes).take 16 :=
                List.map_take _ _ _
              have hlen : sqliteMagic.length = 15 := rfl
              rw [List.isPrefixOf_iff_prefix, List.prefix_iff_eq_take, hdec, hlen,
                List.take_take]
              have hmin : (15 : Nat) ⊓ 16 = 15 := by norm_num
              rw [hmin]
              constructor
              · intro hEq
                exact ⟨rfl, bytes, rfl, hEq.symm⟩
              · rintro ⟨-, b, hb, hEq⟩
                have hbb : bytes = b := by injection hb
                rw [hbb]
                exact hEq.symm

/-- C3: whenever the confirmation gate is reached (auto-confirm unset) and
the answer is not y or yes case-insensitively, the import pipeline leaves
the table unchanged, never opens a store handle, performs no update, and
terminates normally. -/
theorem c3_cancellation_safety (db : List (String × Raw))
    (fileParse : Except String JValue) (answer : String)
    (h1 : answer.data.map Char.toLower ≠ ['y'])
    (h2 : answer.data.map Char.toLower ≠ ['y', 'e', 's']) :
    (handleLoadCommand db fileParse false answer).result = Except.ok () ∧
    (handleLoadCommand db fileParse false answer).db = db ∧
    (∀ b, Event.openStore b ∉ (handleLoadCommand db fileParse false answer).events) ∧
    (∀ k, Event.dbUpdate k ∉ (handleLoadCommand db fileParse false answer).events) := by
  have hp : promptAffirmative answer = false := by
    simp [promptAffirmative, h1, h2]
  simp [handleLoadCommand, hp]

/-- C3 witness: answering n with a malformed input file cancels cleanly. -/
theorem c3_witness :
    (handleLoadCommand [] (Except.error emptyStr) false answerNo).result = Except.ok () ∧
    (handleLoadCommand [] (Except.error emptyStr) false answerNo).db = [] ∧
    (∀ b, Event.openStore b ∉
      (handleLoadCommand [] (Except.error emptyStr) false answerNo).events) ∧
    (∀ k, Event.dbUpdate k ∉
      (handleLoadCommand [] (Except.error emptyStr) false answerNo).events) :=
  c3_cancellation_safety [] (Except.error emptyStr) answerNo (by decide) (by decide)

theorem joinWith_contains (sep : String) :
    ∀ (l : List String) (x : String), x ∈ l →
      ∃ a b, joinWith sep l = a ++ x ++ b := by
  intro l
  induction l with
  | nil => intro x hx; exact absurd hx (List.not_mem_nil x)
  | cons y ys ih =>
      intro x hx
      rcases List.mem_cons.mp hx with rfl | hx'
      · cases ys with
        | nil =>
            refine ⟨emptyStr, emptyStr, ?_⟩
            have he : ∀ s : String, s ++ emptyStr = s := fun s => String.append_empty s
            show x = (emptyStr ++ x) ++ emptyStr
            rw [he]
            rfl
        | cons z zs =>
            refine ⟨emptyStr, sep ++ joinWith sep (z :: zs), ?_⟩
            show x ++ sep ++ joinWith sep (z :: zs) =
              (emptyStr ++ x) ++ (sep ++ joinWith sep (z :: zs))
            rw [String.append_assoc]
            rfl
      · cases ys with
        | nil => exact absurd hx' (List.not_mem_nil x)
        | cons z zs =>
            obtain ⟨a, b, hab⟩ := ih x hx'
            refine ⟨y ++ sep ++ a, b, ?_⟩
            show y ++ sep ++ joinWith sep (z :: zs) = (y ++ sep ++ a) ++ x ++ b
            rw [hab]
            simp [String.append_assoc]

theorem notFound_contains_bullet (home q : String) (hq : q ∈ possiblePaths home) :
    strContainsSub (notFoundMessage home) (bulletPrefix ++ q) := by
  have hmem : (bulletPrefix ++ q) ∈
      (possiblePaths home).map (fun p => bulletPrefix ++ p) :=
    List.mem_map.mpr ⟨q, hq, rfl⟩
  obtain ⟨a, b, hab⟩ :=
    joinWith_contains newline ((possiblePaths home).map (fun p => bulletPrefix ++ p))
      (bulletPrefix ++ q) hmem
  refine ⟨notFoundHeader ++ a, b ++ notFoundFooter, ?_⟩
  show notFoundHeader ++
      joinWith newline ((possiblePaths home).map (fun p => bulletPrefix ++ p)) ++
      notFoundFooter = (notFoundHeader ++ a) ++ (bulletPrefix ++ q) ++ (b ++ notFoundFooter)
  rw [hab]
  simp [String.append_assoc]

theorem notFound_contains_guidance (home : String) :
    strContainsSub (notFoundMessage home) dbPathGuidance := by
  refine ⟨notFoundHeader ++
      joinWith newline ((possiblePaths home).map (fun p => bulletPrefix ++ p)) ++
      notFoundFooterA, notFoundFooterB, ?_⟩
  show notFoundHeader ++
      joinWith newline ((possiblePaths home).map (fun p => bulletPrefix ++ p)) ++
      notFoundFooter = _
  rw [notFoundFooter]
  simp [String.append_assoc]

/-- C5: with no custom path the locator probes the fixed candidate list
(macOS, Windows, Linux XDG, Linux dotfile, snap, local-share) strictly in
declared order and returns the first existing candidate, never a later
one, for every combination of existing candidates — every successful
result is the first existing candidate, and whenever the list splits
around a candidate that exists and whose predecessors all do not, the
locator does succeed with exactly that candidate; when none exists it
fails with the error whose message lists every candidate path tried as a
bullet line and carries the guidance about the custom path flag. -/
theorem c5_locator_ordering (ex : String → Bool) (home : String) :
    (∀ p, findCursorDatabase ex home none = Except.ok p →
        ex p = true ∧ ∃ pre post, possiblePaths home = pre ++ p :: post ∧
          ∀ q ∈ pre, ex q = false) ∧
    (∀ pre p post, possiblePaths home = pre ++ p :: post → ex p = true →
        (∀ q ∈ pre, ex q = false) →
        findCursorDatabase ex home none = Except.ok p) ∧
    ((∀ q ∈ possiblePaths home, ex q = false) →
        findCursorDatabase ex home none = Except.error (notFoundMessage home)) ∧
    (∀ q ∈ possiblePaths home,
        strContainsSub (notFoundMessage home) (bulletPrefix ++ q)) ∧
    strContainsSub (notFoundMessage home) dbPathGuidance := by
  have hnone : findCursorDatabase ex home none =
      (match (possiblePaths home).find? ex with
       | some p => Except.ok p
       | none => Except.error (notFoundMessage home)) := rfl
  refine ⟨?_, ?_, ?_, ?_, ?_⟩
  · intro p hp
    rw [hnone] at hp
    cases hfind : (possiblePaths home).find? ex with
    | none => rw [hfind] at hp; exact Except.noConfusion hp
    | some q =>
        rw [hfind] at hp
        obtain rfl : q = p := Except.ok.inj hp
        obtain ⟨h1, l₁, l₂, hl, hall⟩ :=
          find?_some_split ex (possiblePaths home) q hfind
        exact ⟨h1, l₁, l₂, hl, hall⟩
  · intro pre p post hl hp hpre
    have hfindpre : pre.find? ex = none :=
      List.find?_eq_none.mpr (fun x hx => by simp [hpre x hx])
    have hfind : (possiblePaths home).find? ex = some p := by
      rw [hl, find_append_none ex (p :: post) pre hfindpre,
        find_cons_pos ex p post hp]
    rw [hnone, hfind]
  · intro hall
    have hfind : (possiblePaths home).find? ex = none :=
      List.find?_eq_none.mpr (fun x hx => by simp [hall x hx])
    rw [hnone, hfind]
  · intro q hq
    exact notFound_contains_bullet home q hq
  · exact notFound_contains_guidance home

/-- C5 witness: when no candidate exists the locator returns the
enumerating error, and when exactly the second (Windows) candidate exists
the locator succeeds with it, at a concrete home directory. -/
theorem c5_witness :
    (findCursorDatabase (fun _ => false) homeSample none =
      Except.error (notFoundMessage homeSample)) ∧
    findCursorDatabase exSample homeSample none = Except.ok winPathSample := by
  constructor
  · exact (c5_locator_ordering (fun _ => false) homeSample).2.2.1 (fun _ _ => rfl)
  · exact (c5_locator_ordering exSample homeSample).2.1
      [macPathSample] winPathSample postPathsSample rfl (by decide) (by decide)

theorem saveEvents_cases (db : List (String × Raw)) (writeOk : Bool) :
    (saveModesToFile db writeOk).events = [Event.openStore true, Event.closeStore] ∨
    (saveModesToFile db writeOk).events =
      [Event.openStore true, Event.fileWrite, Event.closeStore] ∨
    (saveModesToFile db writeOk).events =
      [Event.openStore true, Event.warnNoModes, Event.fileWrite, Event.closeStore] ∨
    (saveModesToFile db writeOk).events =
      [Event.openStore true, Event.warnNoModes, Event.closeStore] := by
  unfold saveModesToFile
  repeat' split
  all_goals simp

theorem loadEvents_cases (db : List (String × Raw)) (fp : Except String JValue) :
    (loadModesFromFile db fp).events = [Event.fileRead] ∨
    (loadModesFromFile db fp).events =
      [Event.fileRead, Event.openStore false, Event.closeStore] ∨
    (loadModesFromFile db fp).events =
      [Event.fileRead, Event.openStore false, Event.dbUpdate CURSOR_SETTINGS_KEY,
        Event.closeStore] := by
  unfold loadModesFromFile
  repeat' split
  all_goals simp

/-- C4: in both the export and the import pipeline, the store-handle trace
is well scoped on every input: opens and closes balance and a handle is
never closed before it is opened, so an opened handle is closed on every
exit path, including the paths where the fetch, the parse of the stored
value, or the file write throws. -/
theorem c4_handle_release (db : List (String × Raw)) (writeOk : Bool)
    (fp : Except String JValue) (skip : Bool) (answer : String) :
    wellScoped (saveModesToFile db writeOk).events = true ∧
    wellScoped (loadModesFromFile db fp).events = true ∧
    wellScoped (handleLoadCommand db fp skip answer).events = true := by
  refine ⟨?_, ?_, ?_⟩
  · rcases saveEvents_cases db writeOk with h | h | h | h <;> rw [h] <;> decide
  · rcases loadEvents_cases db fp with h | h | h <;> rw [h] <;> decide
  · cases skip with
    | false =>
        cases haff : promptAffirmative answer with
        | false =>
            have hev : (handleLoadCommand db fp false answer).events = [Event.prompt] := by
              simp [handleLoadCommand, haff]
            rw [hev]; decide
        | true =>
            have hev : (handleLoadCommand db fp false answer).events =
                Event.prompt :: (loadModesFromFile db fp).events := by
              simp [handleLoadCommand, haff]
            rw [hev]
            rcases loadEvents_cases db fp with h | h | h <;> rw [h] <;> decide
    | true =>
        have hev : (handleLoadCommand db fp true answer).events =
            (loadModesFromFile db fp).events := by
          simp [handleLoadCommand]
        rw [hev]
        rcases loadEvents_cases db fp with h | h | h <;> rw [h] <;> decide

/-- C8 (counterexample): with auto-confirm unset and a malformed source
file, a cancelling answer makes the import pipeline terminate normally
with only the prompt in its trace: the file is never read and no
read/parse failure surfaces before the gate, so the pipeline does not
read and parse the source file first as the claim states. -/
theorem c8_claim_false :
    (handleLoadCommand [] (Except.error emptyStr) false answerNo).result =
      Except.ok () ∧
    (handleLoadCommand [] (Except.error emptyStr) false answerNo).events =
      [Event.prompt] :=
  ⟨rfl, rfl⟩

/-- C8 (amended): the import pipeline runs the confirmation gate first
(unless bypassed) and cancellation stops everything; once past the gate
it reads and JSON-parses the source file, fails fast on a read/parse
error before touching the store, fails with the array-shape error before
touching the store when the parsed value is not an array, and only then
opens the store read-write. -/
theorem c8_import_ordering (db : List (String × Raw)) (fp : Except String JValue) :
    ((loadModesFromFile db fp).events.head? = some Event.fileRead) ∧
    (∀ e, fp = Except.error e →
      (loadModesFromFile db fp).result = Except.error (readParseErrPrefix ++ e) ∧
      (loadModesFromFile db fp).events = [Event.fileRead]) ∧
    (∀ v, fp = Except.ok v → isArr v = false →
      (loadModesFromFile db fp).result = Except.error notArrayErr ∧
      (loadModesFromFile db fp).events = [Event.fileRead]) ∧
    (∀ xs, fp = Except.ok (JValue.arr xs) →
      ∃ rest, (loadModesFromFile db fp).events =
        Event.fileRead :: Event.openStore false :: rest) ∧
    (∀ answer, promptAffirmative answer = false →
      (handleLoadCommand db fp false answer).events = [Event.prompt]) ∧
    (∀ answer, promptAffirmative answer = true →
      (handleLoadCommand db fp false answer).events =
        Event.prompt :: (loadModesFromFile db fp).events) := by
  refine ⟨?_, ?_, ?_, ?_, ?_, ?_⟩
  · rcases loadEvents_cases db fp with h | h | h <;> rw [h] <;> rfl
  · intro e he
    subst he
    exact ⟨rfl, rfl⟩
  · intro v hv hva
    subst hv
    cases v with
    | arr xs => simp [isArr] at hva
    | null => exact ⟨rfl, rfl⟩
    | bool b => exact ⟨rfl, rfl⟩
    | num n => exact ⟨rfl, rfl⟩
    | str s => exact ⟨rfl, rfl⟩
    | obj o => exact ⟨rfl, rfl⟩
  · intro xs hx
    subst hx
    unfold loadModesFromFile
    repeat' split
    all_goals try exact ⟨_, rfl⟩
    all_goals exfalso
    all_goals try simp_all
    all_goals rename_i h1 h2
    all_goals exact h2 xs h1.symm
  · intro answer h
    simp [handleLoadCommand, h]
  · intro answer h
    simp [handleLoadCommand, h]

/-- C8 witness: the gate-first behaviour and the fail-fast of the store
phase at concrete inputs. -/
theorem c8_witness :
    (loadModesFromFile [] (Except.error emptyStr)).result =
      Except.error (readParseErrPrefix ++ emptyStr) ∧
    (loadModesFromFile [] (Except.error emptyStr)).events = [Event.fileRead] :=
  (c8_import_ordering [] (Except.error emptyStr)).2.1 emptyStr rfl

/-- C9: exporting a stored settings record that exists and parses as JSON
but whose extracted composerState/modes4 value is not an array succeeds,
writes the empty array to the output file, and emits the non-fatal
no-modes diagnostic instead of raising an error. -/
theorem c9_missing_array_export (db : List (String × Raw))
    (fields : List (String × JValue))
    (hget : tableGet db CURSOR_SETTINGS_KEY = some (Raw.wf (JValue.obj fields)))
    (hnomodes : ∀ xs,
      optChain (optChain (some (JValue.obj fields)) COMPOSER_STATE_KEY) MODES_KEY ≠
        some (JValue.arr xs)) :
    (saveModesToFile db true).result = Except.ok () ∧
    (saveModesToFile db true).written = some (JValue.arr []) ∧
    Event.warnNoModes ∈ (saveModesToFile db true).events := by
  cases hmode : optChain (optChain (some (JValue.obj fields)) COMPOSER_STATE_KEY)
      MODES_KEY with
  | none =>
      refine ⟨?_, ?_, ?_⟩ <;> simp [saveModesToFile, hget, parseRaw, hmode]
  | some v =>
      cases v with
      | arr xs => exact absurd hmode (hnomodes xs)
      | null =>
          refine ⟨?_, ?_, ?_⟩ <;> simp [saveModesToFile, hget, parseRaw, hmode]
      | bool b =>
          refine ⟨?_, ?_, ?_⟩ <;> simp [saveModesToFile, hget, parseRaw, hmode]
      | num n =>
          refine ⟨?_, ?_, ?_⟩ <;> simp [saveModesToFile, hget, parseRaw, hmode]
      | str s =>
          refine ⟨?_, ?_, ?_⟩ <;> simp [saveModesToFile, hget, parseRaw, hmode]
      | obj o =>
          refine ⟨?_, ?_, ?_⟩ <;> simp [saveModesToFile, hget, parseRaw, hmode]

/-- C9 witness: a record whose composerState is present but empty. -/
theorem c9_witness :
    (saveModesToFile sampleNoModesDb true).result = Except.ok () ∧
    (saveModesToFile sampleNoModesDb true).written = some (JValue.arr []) ∧
    Event.warnNoModes ∈ (saveModesToFile sampleNoModesDb true).events :=
  c9_missing_array_export sampleNoModesDb sampleNoModesFields rfl
    (fun _ h => Option.noConfusion h)

/-- C2: merging a new records array into a stored settings record (a JSON
object whose composerState, when present, is an object) replaces
composerState.modes4 wholesale with the new array, initializes
composerState as an empty mapping when it is missing, leaves every
sibling property of the top-level record and of the nested container
unchanged, and persists the result under the same key through the UPDATE
statement: same rows in the same order, no insert, other rows
unchanged. -/
theorem c2_merge_preserves_siblings (db : List (String × Raw))
    (fields : List (String × JValue)) (newModes : List JValue)
    (hget : tableGet db CURSOR_SETTINGS_KEY = some (Raw.wf (JValue.obj fields)))
    (hcs : objGet fields COMPOSER_STATE_KEY = none ∨
      ∃ c, objGet fields COMPOSER_STATE_KEY = some (JValue.obj c)) :
    (loadModesFromFile db (Except.ok (JValue.arr newModes))).result = Except.ok () ∧
    Event.dbUpdate CURSOR_SETTINGS_KEY ∈
      (loadModesFromFile db (Except.ok (JValue.arr newModes))).events ∧
    (loadModesFromFile db (Except.ok (JValue.arr newModes))).db.map Prod.fst =
      db.map Prod.fst ∧
    (∀ k, k ≠ CURSOR_SETTINGS_KEY →
      tableGet (loadModesFromFile db (Except.ok (JValue.arr newModes))).db k =
        tableGet db k) ∧
    ∃ fields2 c2,
      tableGet (loadModesFromFile db (Except.ok (JValue.arr newModes))).db
          CURSOR_SETTINGS_KEY = some (Raw.wf (JValue.obj fields2)) ∧
      objGet fields2 COMPOSER_STATE_KEY = some (JValue.obj c2) ∧
      objGet c2 MODES_KEY = some (JValue.arr newModes) ∧
      (∀ k, k ≠ COMPOSER_STATE_KEY → objGet fields2 k = objGet fields k) ∧
      (∀ k, k ≠ MODES_KEY → objGet c2 k =
        (match objGet fields COMPOSER_STATE_KEY with
         | some (JValue.obj c) => objGet c k
         | _ => none)) := by
  rcases hcs with hnone | ⟨c, hc⟩
  · have hci : composerInit fields =
        objSet fields COMPOSER_STATE_KEY (JValue.obj []) := by
      simp [composerInit, hnone]
    have hcs0 : objGet (composerInit fields) COMPOSER_STATE_KEY =
        some (JValue.obj []) := by
      rw [hci]
      exact objGet_objSet_self fields COMPOSER_STATE_KEY (JValue.obj [])
    have hred : loadModesFromFile db (Except.ok (JValue.arr newModes)) =
        { result := Except.ok (),
          events := [Event.fileRead, Event.openStore false,
                     Event.dbUpdate CURSOR_SETTINGS_KEY, Event.closeStore],
          db := tableUpdate db CURSOR_SETTINGS_KEY
                  (Raw.wf (JValue.obj
                    (objSet (composerInit fields) COMPOSER_STATE_KEY
                      (JValue.obj (objSet [] MODES_KEY (JValue.arr newModes)))))) } := by
      simp [loadModesFromFile, hget, parseRaw, hcs0]
    refine ⟨by rw [hred], by rw [hred]; simp, by rw [hred]; exact tableUpdate_keys db _ _,
      ?_, objSet (composerInit fields) COMPOSER_STATE_KEY
        (JValue.obj (objSet [] MODES_KEY (JValue.arr newModes))),
      objSet [] MODES_KEY (JValue.arr newModes),
      ?_, objGet_objSet_self _ _ _, objGet_objSet_self _ _ _, ?_, ?_⟩
    · intro k hk
      rw [hred]
      exact tableGet_tableUpdate_other db CURSOR_SETTINGS_KEY k _ hk
    · rw [hred]
      exact tableGet_tableUpdate_self db _ _ (by rw [hget]; rfl)
    · intro k hk
      rw [objGet_objSet_other _ _ _ _ hk, hci, objGet_objSet_other _ _ _ _ hk]
    · intro k hk
      rw [objGet_objSet_other _ _ _ _ hk, hnone]
      rfl
  · have hci : composerInit fields = fields := by
      simp [composerInit, hc, jsFalsy]
    have hcs0 : objGet (composerInit fields) COMPOSER_STATE_KEY =
        some (JValue.obj c) := by
      rw [hci]
      exact hc
    have hred : loadModesFromFile db (Except.ok (JValue.arr newModes)) =
        { result := Except.ok (),
          events := [Event.fileRead, Event.openStore false,
                     Event.dbUpdate CURSOR_SETTINGS_KEY, Event.closeStore],
          db := tableUpdate db CURSOR_SETTINGS_KEY
                  (Raw.wf (JValue.obj
                    (objSet (composerInit fields) COMPOSER_STATE_KEY
                      (JValue.obj (objSet c MODES_KEY (JValue.arr newModes)))))) } := by
      simp [loadModesFromFile, hget, parseRaw, hcs0]
    refine ⟨by rw [hred], by rw [hred]; simp, by rw [hred]; exact tableUpdate_keys db _ _,
      ?_, objSet (composerInit fields) COMPOSER_STATE_KEY
        (JValue.obj (objSet c MODES_KEY (JValue.arr newModes))),
      objSet c MODES_KEY (JValue.arr newModes),
      ?_, objGet_objSet_self _ _ _, objGet_objSet_self _ _ _, ?_, ?_⟩
    · intro k hk
      rw [hred]
      exact tableGet_tableUpdate_other db CURSOR_SETTINGS_KEY k _ hk
    · rw [hred]
      exact tableGet_tableUpdate_self db _ _ (by rw [hget]; rfl)
    · intro k hk
      rw [objGet_objSet_other _ _ _ _ hk, hci]
    · intro k hk
      rw [objGet_objSet_other _ _ _ _ hk, hc]

/-- C2 witness at a concrete store: composerState present with a sibling,
a top-level sibling, and the empty new array. -/
theorem c2_witness :
    (loadModesFromFile sampleDb (Except.ok (JValue.arr []))).result = Except.ok () ∧
    Event.dbUpdate CURSOR_SETTINGS_KEY ∈
      (loadModesFromFile sampleDb (Except.ok (JValue.arr []))).events ∧
    (loadModesFromFile sampleDb (Except.ok (JValue.arr []))).db.map Prod.fst =
      sampleDb.map Prod.fst ∧
    (∀ k, k ≠ CURSOR_SETTINGS_KEY →
      tableGet (loadModesFromFile sampleDb (Except.ok (JValue.arr []))).db k =
        tableGet sampleDb k) ∧
    ∃ fields2 c2,
      tableGet (loadModesFromFile sampleDb (Except.ok (JValue.arr []))).db
          CURSOR_SETTINGS_KEY = some (Raw.wf (JValue.obj fields2)) ∧
      objGet fields2 COMPOSER_STATE_KEY = some (JValue.obj c2) ∧
      objGet c2 MODES_KEY = some (JValue.arr []) ∧
      (∀ k, k ≠ COMPOSER_STATE_KEY → objGet fields2 k = objGet sampleFields k) ∧
      (∀ k, k ≠ MODES_KEY → objGet c2 k =
        (match objGet sampleFields COMPOSER_STATE_KEY with
         | some (JValue.obj c) => objGet c k
         | _ => none)) :=
  c2_merge_preserves_siblings sampleDb sampleFields [] rfl
    (Or.inr ⟨sampleContainer, rfl⟩)

/-- C1: round-trip law — for a store whose settings record holds a nested
modes array R, exporting succeeds and writes exactly R to the file, and
importing that exported file back into the same store succeeds and stores
a record whose composerState.modes4 is deep-equal to R while every
sibling property of the record (top-level and within the nested
container) and every other row of the table is unchanged. -/
theorem c1_round_trip (db : List (String × Raw))
    (fields c : List (String × JValue)) (R : List JValue)
    (hget : tableGet db CURSOR_SETTINGS_KEY = some (Raw.wf (JValue.obj fields)))
    (hcs : objGet fields COMPOSER_STATE_KEY = some (JValue.obj c))
    (hmodes : objGet c MODES_KEY = some (JValue.arr R)) :
    ∃ w, (saveModesToFile db true).written = some w ∧
      (saveModesToFile db true).result = Except.ok () ∧
      (loadModesFromFile db (Except.ok w)).result = Except.ok () ∧
      ∃ fields2 c2,
        tableGet (loadModesFromFile db (Except.ok w)).db CURSOR_SETTINGS_KEY =
          some (Raw.wf (JValue.obj fields2)) ∧
        objGet fields2 COMPOSER_STATE_KEY = some (JValue.obj c2) ∧
        objGet c2 MODES_KEY = some (JValue.arr R) ∧
        (∀ k, k ≠ COMPOSER_STATE_KEY → objGet fields2 k = objGet fields k) ∧
        (∀ k, k ≠ MODES_KEY → objGet c2 k = objGet c k) ∧
        (∀ k, k ≠ CURSOR_SETTINGS_KEY →
          tableGet (loadModesFromFile db (Except.ok w)).db k = tableGet db k) := by
  have hchain : optChain (optChain (some (JValue.obj fields)) COMPOSER_STATE_KEY)
      MODES_KEY = some (JValue.arr R) := by
    simp [optChain, hcs, hmodes]
  have hsave : saveModesToFile db true =
      { result := Except.ok (),
        events := [Event.openStore true, Event.fileWrite, Event.closeStore],
        written := some (JValue.arr R) } := by
    simp [saveModesToFile, hget, parseRaw, hchain, jsFalsy]
  have hci : composerInit fields = fields := by
    simp [composerInit, hcs, jsFalsy]
  have hcs0 : objGet (composerInit fields) COMPOSER_STATE_KEY =
      some (JValue.obj c) := by
    rw [hci]
    exact hcs
  have hload : loadModesFromFile db (Except.ok (JValue.arr R)) =
      { result := Except.ok (),
        events := [Event.fileRead, Event.openStore false,
                   Event.dbUpdate CURSOR_SETTINGS_KEY, Event.closeStore],
        db := tableUpdate db CURSOR_SETTINGS_KEY
                (Raw.wf (JValue.obj
                  (objSet (composerInit fields) COMPOSER_STATE_KEY
                    (JValue.obj (objSet c MODES_KEY (JValue.arr R)))))) } := by
    simp [loadModesFromFile, hget, parseRaw, hcs0]
  refine ⟨JValue.arr R, by rw [hsave], by rw [hsave], by rw [hload],
    objSet (composerInit fields) COMPOSER_STATE_KEY
      (JValue.obj (objSet c MODES_KEY (JValue.arr R))),
    objSet c MODES_KEY (JValue.arr R),
    ?_, objGet_objSet_self _ _ _, objGet_objSet_self _ _ _, ?_, ?_, ?_⟩
  · rw [hload]
    exact tableGet_tableUpdate_self db _ _ (by rw [hget]; rfl)
  · intro k hk
    rw [objGet_objSet_other _ _ _ _ hk, hci]
  · intro k hk
    rw [objGet_objSet_other _ _ _ _ hk]
  · intro k hk
    rw [hload]
    exact tableGet_tableUpdate_other db CURSOR_SETTINGS_KEY k _ hk

/-- C1 witness at a concrete store whose record holds a one-element modes
array with siblings at both levels. -/
theorem c1_witness :
    ∃ w, (saveModesToFile sampleDb true).written = some w ∧
      (saveModesToFile sampleDb true).result = Except.ok () ∧
      (loadModesFromFile sampleDb (Except.ok w)).result = Except.ok () ∧
      ∃ fields2 c2,
        tableGet (loadModesFromFile sampleDb (Except.ok w)).db CURSOR_SETTINGS_KEY =
          some (Raw.wf (JValue.obj fields2)) ∧
        objGet fields2 COMPOSER_STATE_KEY = some (JValue.obj c2) ∧
        objGet c2 MODES_KEY = some (JValue.arr [JValue.num 7]) ∧
        (∀ k, k ≠ COMPOSER_STATE_KEY → objGet fields2 k = objGet sampleFields k) ∧
        (∀ k, k ≠ MODES_KEY → objGet c2 k = objGet sampleContainer k) ∧
        (∀ k, k ≠ CURSOR_SETTINGS_KEY →
          tableGet (loadModesFromFile sampleDb (Except.ok w)).db k =
            tableGet sampleDb k) :=
  c1_round_trip sampleDb sampleFields sampleContainer [JValue.num 7] rfl rfl rfl

end Modeload

